import Mathlib

/-!
# Verification of the grifter image cache-and-prefetch pipeline

A shallow embedding of the image cache, prefetch worker pool, and
compressed-asset serving layer of `src/server/src/api.rs`, together with
theorems checking the natural-language specification against it.

Conventions of the embedding:
* Filesystem paths are lists of components (`FPath`), mirroring `PathBuf`
  construction by `join`; the filesystem is an explicit `FS` value threaded
  through every operation.
* Decoded images (the `image` crate's `DynamicImage`) are abstracted to
  their dimensions plus an opaque content tag (`Img`); the external
  `DynamicImage::thumbnail` resampler is a parameter `thumbFn`.
* The external remote source (`igdb::get_image` followed by
  `image::load_from_memory_with_format`) is a parameter
  `remote : String → Option Img`, `none` standing for any fetch/decode
  failure.
* The external `flate2` gzip encoder and the `blake2` 10-byte
  variable-output digest are parameters `gzipFn` and `digestFn`; the
  URL-safe unpadded base64 encoding (`base64::Config::new(UrlSafe, false)`)
  is embedded concretely.
* `rouille`'s `Response` combinators (`from_data`, `from_file`,
  `empty_404`, `with_unique_header`, `with_etag`, `with_public_cache`) are
  embedded from their documented behavior, a request being represented by
  the parts the handlers consult (the `size` query parameter, the
  `If-None-Match` header).
-/

namespace Grifter

/-- A decoded in-memory image: dimensions plus an opaque content tag. -/
structure Img where
  width : Nat
  height : Nat
  data : Nat
deriving DecidableEq, Repr

/-- A filesystem path, as the list of components joined by `PathBuf::join`. -/
abbrev FPath := List String

/-- The local filesystem visible to the cache: a set of directories and a
map from paths to file contents (newest write first). -/
structure FS where
  dirs : List FPath
  files : List (FPath × Img)
deriving DecidableEq

/-- `fs::create_dir`, with `AlreadyExists` treated as success (the only
failure mode the model has; any other error kind panics in the source). -/
def FS.create_dir (fs : FS) (d : FPath) : FS :=
  if d ∈ fs.dirs then fs else { fs with dirs := d :: fs.dirs }

/-- Open a file for reading (`File::open` / `image::open`). -/
def FS.read (fs : FS) (p : FPath) : Option Img :=
  fs.files.lookup p

/-- Write a file (`save_with_format`); a rewrite shadows the old content. -/
def FS.save (fs : FS) (p : FPath) (img : Img) : FS :=
  { fs with files := (p, img) :: fs.files }

/-- `Path::new("./cache")`. -/
def cacheRoot : FPath := ["./cache"]

/-- `./cache/<identifier>`, the per-image cache directory. -/
def imageDir (image_id : String) : FPath := ["./cache", image_id]

/-- `image_cache` from api.rs: create the cache root and the per-image
directory if absent, and return the per-image directory. -/
def image_cache (fs : FS) (image_id : String) : FS × FPath :=
  let fs := fs.create_dir cacheRoot
  let fs := fs.create_dir (imageDir image_id)
  (fs, imageDir image_id)

/-- `max_dimensions` from api.rs: clamp each axis independently to its
optional maximum. -/
def max_dimensions (dimensions : Nat × Nat) (max : Option Nat × Option Nat) : Nat × Nat :=
  let width := dimensions.1
  let height := dimensions.2
  let width := match max.1 with
    | some max_width => Nat.min width max_width
    | none => width
  let height := match max.2 with
    | some max_height => Nat.min height max_height
    | none => height
  (width, height)

/-! ## base64 (URL-safe, unpadded) and `encoded_hash` -/

/-- The URL-safe base64 alphabet used by
`base64::Config::new(CharacterSet::UrlSafe, false)`. -/
def base64UrlAlphabet : List Char :=
  ['A', 'B', 'C', 'D', 'E', 'F', 'G', 'H', 'I', 'J', 'K', 'L', 'M',
   'N', 'O', 'P', 'Q', 'R', 'S', 'T', 'U', 'V', 'W', 'X', 'Y', 'Z',
   'a', 'b', 'c', 'd', 'e', 'f', 'g', 'h', 'i', 'j', 'k', 'l', 'm',
   'n', 'o', 'p', 'q', 'r', 's', 't', 'u', 'v', 'w', 'x', 'y', 'z',
   '0', '1', '2', '3', '4', '5', '6', '7', '8', '9', '-', '_']

/-- The alphabet character at a 6-bit index. -/
def b64Char (n : Nat) : Char := base64UrlAlphabet.getD n 'A'

/-- URL-safe base64 without padding: groups of three bytes become four
characters; one or two trailing bytes become two or three characters and
no `=` padding is appended. -/
def base64UrlNoPad : List Nat → List Char
  | [] => []
  | [a] => [b64Char (a / 4), b64Char (a % 4 * 16)]
  | [a, b] => [b64Char (a / 4), b64Char (a % 4 * 16 + b / 16), b64Char (b % 16 * 4)]
  | a :: b :: c :: rest =>
      b64Char (a / 4) :: b64Char (a % 4 * 16 + b / 16) ::
      b64Char (b % 16 * 4 + c / 64) :: b64Char (c % 64) ::
      base64UrlNoPad rest

/-- Characters of the URL-safe base64 alphabet: ASCII letters, digits,
`-` and `_`. -/
def urlSafeBase64Char (c : Char) : Bool :=
  c.isAlphanum || c == '-' || c == '_'

/-- `encoded_hash` from api.rs: a 10-byte BLAKE2b variable-output digest of
the input (`VarBlake2b::new(10)`, the external `blake2` crate, taken as the
parameter `digestFn`), encoded as URL-safe base64 without padding. -/
def encoded_hash (digestFn : List Nat → List Nat) (bytes : List Nat) : String :=
  String.mk (base64UrlNoPad (digestFn bytes))

/-! ## Asset envelopes -/

/-- `GzippedAsset` from api.rs. -/
structure GzippedAsset where
  mime : String
  bytes : List Nat
  hash : String
deriving DecidableEq

/-- The per-asset envelope construction performed in `start` (api.rs):
compress the payload with gzip (`gzipFn`, the external `flate2` encoder
wrapped by the source's `gzip` function), then hash the compressed bytes. -/
def buildAsset (gzipFn digestFn : List Nat → List Nat) (mime : String)
    (uncompressed : List Nat) : GzippedAsset :=
  let compressed := gzipFn uncompressed
  { mime := mime, bytes := compressed, hash := encoded_hash digestFn compressed }

/-! ## rouille responses -/

/-- A response body: empty, raw bytes, or a streamed file. -/
inductive Body where
  | empty
  | bytes (data : List Nat)
  | file (img : Img)
deriving DecidableEq

/-- The parts of a `rouille::Response` the handlers produce. -/
structure Response where
  status : Nat
  headers : List (String × String)
  body : Body
deriving DecidableEq

/-- `Response::from_data`. -/
def Response.from_data (mime : String) (data : List Nat) : Response :=
  { status := 200, headers := [("Content-Type", mime)], body := .bytes data }

/-- `Response::from_file`. -/
def Response.from_file (mime : String) (img : Img) : Response :=
  { status := 200, headers := [("Content-Type", mime)], body := .file img }

/-- `Response::empty_404`. -/
def Response.empty_404 : Response :=
  { status := 404, headers := [], body := .empty }

/-- `Response::with_unique_header`: replace any header of the same name. -/
def Response.with_unique_header (r : Response) (name value : String) : Response :=
  { r with headers := (name, value) :: r.headers.filter (fun p => !(p.1 == name)) }

/-- `Response::with_etag`: set the `ETag` header and, when the request's
`If-None-Match` validator equals it, turn the response into an empty 304. -/
def Response.with_etag (r : Response) (ifNoneMatch : Option String) (etag : String) : Response :=
  let r := r.with_unique_header "ETag" etag
  if ifNoneMatch = some etag then { r with status := 304, body := .empty } else r

/-- `Response::with_public_cache`: set `Cache-Control: public, max-age=N`. -/
def Response.with_public_cache (r : Response) (maxAgeSeconds : Nat) : Response :=
  r.with_unique_header "Cache-Control" ("public, max-age=" ++ toString maxAgeSeconds)

/-- The value of the first header with the given name. -/
def headerValue (r : Response) (name : String) : Option String :=
  (r.headers.find? (fun p => p.1 == name)).map Prod.snd

/-! ## Handlers -/

/-- `get_asset` from api.rs: serve a precomputed gzipped asset with an
`ETag` and a one-day public cache directive. -/
def get_asset (ifNoneMatch : Option String) (asset : GzippedAsset) : Response :=
  (((Response.from_data asset.mime asset.bytes).with_unique_header
      "content-encoding" "gzip").with_etag ifNoneMatch asset.hash).with_public_cache
    (60 * 60 * 24)

/-- `get_catalog` from api.rs: serve the gzipped catalog JSON with an
`ETag` and a 60-second public cache directive. -/
def get_catalog (ifNoneMatch : Option String) (catalog : GzippedAsset) : Response :=
  (((Response.from_data "application/json" catalog.bytes).with_unique_header
      "content-encoding" "gzip").with_etag ifNoneMatch catalog.hash).with_public_cache 60

/-- `ImageSize` from api.rs. -/
inductive ImageSize where
  | Thumbnail
  | Original
deriving DecidableEq

/-- The `match request.get_param("size").as_deref()` at the top of
`get_image`: only the exact strings `"Thumbnail"` and `"Original"` are
recognized. -/
def parse_size : Option String → Option ImageSize
  | some "Thumbnail" => some .Thumbnail
  | some "Original" => some .Original
  | _ => none

/-- `get_image` from api.rs: recognize the `size` parameter (else 404
before touching the filesystem), ensure the cache directories exist, and
serve the cached rendition file, or 404 when it cannot be opened. No
derivation is performed on the request path. -/
def get_image (fs : FS) (sizeParam : Option String) (image_id : String) : FS × Response :=
  match parse_size sizeParam with
  | none => (fs, Response.empty_404)
  | some size =>
      let (fs, dir) := image_cache fs image_id
      let path := match size with
        | .Thumbnail => dir ++ ["thumbnail.jpeg"]
        | .Original => dir ++ ["original.jpeg"]
      match fs.read path with
      | some img =>
          (fs, (Response.from_file "image/jpeg" img).with_unique_header
            "cache-control" "max-age=10368000, immutable")
      | none => (fs, Response.empty_404)

/-! ## Prefetch worker -/

/-- Outcome of one `image_prefetch_worker` loop iteration: normal
completion carrying the derived renditions, or a panic of the worker
thread (`.unwrap()` on a failed fetch/decode). `fetches` counts remote
fetch attempts. -/
inductive JobResult where
  | ok (fs : FS) (fetches : Nat) (original thumbnail : Img)
  | panicked (fs : FS) (fetches : Nat)
deriving DecidableEq

/-- Second half of the loop body: open `thumbnail.jpeg`, or derive it from
the in-memory original via `max_dimensions (None, Some 200)` and the
`thumbnail` resampler, and persist it. -/
def prefetch_thumb (thumbFn : Img → Nat → Nat → Img) (fs : FS) (dir : FPath)
    (fetches : Nat) (original : Img) : JobResult :=
  let thumbnail_path := dir ++ ["thumbnail.jpeg"]
  match fs.read thumbnail_path with
  | some thumbnail => .ok fs fetches original thumbnail
  | none =>
      let (tw, th) := max_dimensions (original.width, original.height) (none, some 200)
      let thumbnail := thumbFn original tw th
      .ok (fs.save thumbnail_path thumbnail) fetches original thumbnail

/-- One `image_prefetch_worker` loop iteration for one identifier: open
`original.jpeg`, else fetch it from the remote source (panicking on
failure, as the source's `.unwrap()` does) and persist it; then the
thumbnail step. -/
def prefetch_job (remote : String → Option Img) (thumbFn : Img → Nat → Nat → Img)
    (fs : FS) (image_id : String) : JobResult :=
  let (fs, dir) := image_cache fs image_id
  let original_path := dir ++ ["original.jpeg"]
  match fs.read original_path with
  | some original => prefetch_thumb thumbFn fs dir 0 original
  | none =>
      match remote image_id with
      | none => .panicked fs 1
      | some original => prefetch_thumb thumbFn (fs.save original_path original) dir 1 original

/-- The trace of a worker over a finite inbox stream: the final
filesystem, the jobs left unprocessed, and whether the worker panicked. -/
structure WorkerRun where
  fs : FS
  unprocessed : List String
  panicked : Bool
deriving DecidableEq

/-- `image_prefetch_worker`'s loop over its inbox stream: process jobs in
order until the stream closes, or stop at the first panicking job, leaving
the rest unprocessed. -/
def image_prefetch_worker (remote : String → Option Img) (thumbFn : Img → Nat → Nat → Img)
    (fs : FS) : List String → WorkerRun
  | [] => ⟨fs, [], false⟩
  | image_id :: rest =>
      match prefetch_job remote thumbFn fs image_id with
      | .ok fs _ _ _ => image_prefetch_worker remote thumbFn fs rest
      | .panicked fs _ => ⟨fs, rest, true⟩

/-! ## The spec's on-demand Fetch-and-Derive (for comparison with `get_image`) -/

/-- A rendition tag, following spec section 3. -/
inductive Rendition where
  | Original
  | Scaled (maxWidth maxHeight : Option Nat)

/-- Modelled from the spec: `obtain(identifier, Original)` of section 4.2 —
read the cached original, else fetch from the remote source, persist, and
return the bytes; a fetch failure is an error. -/
def spec_obtain_original (remote : String → Option Img) (fs : FS)
    (image_id : String) : Option (FS × Img) :=
  let (fs, dir) := image_cache fs image_id
  match fs.read (dir ++ ["original.jpeg"]) with
  | some img => some (fs, img)
  | none =>
      match remote image_id with
      | none => none
      | some img => some (fs.save (dir ++ ["original.jpeg"]) img, img)

/-- Modelled from the spec: `obtain(identifier, rendition)` of section 4.2 —
for `Scaled`, obtain the original, clamp each axis independently, resize
via the thumbnail operation, persist, and return. -/
def spec_obtain (remote : String → Option Img) (thumbFn : Img → Nat → Nat → Img)
    (fs : FS) (image_id : String) : Rendition → Option (FS × Img)
  | .Original => spec_obtain_original remote fs image_id
  | .Scaled maxWidth maxHeight =>
      let (fs, dir) := image_cache fs image_id
      match fs.read (dir ++ ["thumbnail.jpeg"]) with
      | some img => some (fs, img)
      | none =>
          match spec_obtain_original remote fs image_id with
          | none => none
          | some (fs, original) =>
              let (tw, th) := max_dimensions (original.width, original.height)
                (maxWidth, maxHeight)
              let thumbnail := thumbFn original tw th
              some (fs.save (dir ++ ["thumbnail.jpeg"]) thumbnail, thumbnail)

/-- Modelled from the spec: the image endpoint of section 4.5 — call
Fetch-and-Derive synchronously on the request path, with the wider
on-demand policy `max_height = 400` for the scaled size class; respond
with the JPEG bytes on success and not-found on any derivation failure. -/
def spec_get_image (remote : String → Option Img) (thumbFn : Img → Nat → Nat → Img)
    (fs : FS) (sizeParam : Option String) (image_id : String) : FS × Response :=
  match parse_size sizeParam with
  | none => (fs, Response.empty_404)
  | some size =>
      let rendition := match size with
        | .Thumbnail => Rendition.Scaled none (some 400)
        | .Original => Rendition.Original
      match spec_obtain remote thumbFn fs image_id rendition with
      | some (fs, img) =>
          (fs, (Response.from_file "image/jpeg" img).with_unique_header
            "cache-control" "max-age=10368000, immutable")
      | none => (fs, Response.empty_404)

/-! ## The worker pool dispatcher (`image_prefetch_pool`)

The pool is concurrent, so it is embedded as a small-step transition
system over a global state: the dispatcher's busy flags and remaining job
stream, each worker's single-slot inbox (`bounded(1)`) and processing
state, and the `bounded(thread_count)` completion channel. A channel send
is enabled only when the channel has room, which models crossbeam's
blocking sends; the worker's fetch-decode-persist work is irrelevant to
the dispatch claims and is abstracted to the `working` state. -/

/-- A worker thread is blocked on its inbox or processing one identifier. -/
inductive WStatus where
  | idle
  | working (job : String)
deriving DecidableEq

/-- Global state of `image_prefetch_pool` with `n` worker threads. -/
structure PoolState (n : Nat) where
  isBusy : Fin n → Bool
  inbox : Fin n → Option String
  wstatus : Fin n → WStatus
  completion : List (Fin n)
  jobs : List String

/-- The state right after `image_prefetch_pool` spawns its workers. -/
def initPool (n : Nat) (jobs : List String) : PoolState n :=
  { isBusy := fun _ => false
    inbox := fun _ => none
    wstatus := fun _ => .idle
    completion := []
    jobs := jobs }

/-- 1 if the inbox slot is occupied. -/
def inboxLoad : Option String → Nat
  | none => 0
  | some _ => 1

/-- 1 if the worker is processing a job. -/
def statusLoad : WStatus → Nat
  | .idle => 0
  | .working _ => 1

/-- Jobs attributable to worker `i` that the dispatcher has handed out and
not yet accounted for: in the inbox, being processed, or finished with the
completion signal still queued. -/
def pend {n : Nat} (s : PoolState n) (i : Fin n) : Nat :=
  inboxLoad (s.inbox i) + statusLoad (s.wstatus i) + s.completion.count i

/-- Interleaving semantics of `image_prefetch_pool` and
`image_prefetch_worker`:
* `dispatchFree`: the dispatcher finds a worker not marked busy, marks it,
  and sends the next job to its inbox;
* `dispatchWait`: all workers are marked busy, so the dispatcher receives
  a finished worker's index from the completion channel and sends the next
  job straight to that worker's inbox;
* `workerTake`: a worker receives the job waiting in its inbox;
* `workerFinish`: a worker finishes its job and queues its index on the
  completion channel (which has capacity `n`). -/
inductive PoolStep {n : Nat} : PoolState n → PoolState n → Prop where
  | dispatchFree (s : PoolState n) (i : Fin n) (j : String) (rest : List String) :
      s.jobs = j :: rest → s.isBusy i = false → s.inbox i = none →
      PoolStep s { s with jobs := rest,
                          isBusy := Function.update s.isBusy i true,
                          inbox := Function.update s.inbox i (some j) }
  | dispatchWait (s : PoolState n) (i : Fin n) (j : String) (rest : List String)
      (cs : List (Fin n)) :
      s.jobs = j :: rest → (∀ k, s.isBusy k = true) → s.completion = i :: cs →
      s.inbox i = none →
      PoolStep s { s with jobs := rest, completion := cs,
                          inbox := Function.update s.inbox i (some j) }
  | workerTake (s : PoolState n) (i : Fin n) (j : String) :
      s.wstatus i = .idle → s.inbox i = some j →
      PoolStep s { s with inbox := Function.update s.inbox i none,
                          wstatus := Function.update s.wstatus i (.working j) }
  | workerFinish (s : PoolState n) (i : Fin n) (j : String) :
      s.wstatus i = .working j → s.completion.length < n →
      PoolStep s { s with wstatus := Function.update s.wstatus i .idle,
                          completion := s.completion ++ [i] }

/-- States reachable from a given initial pool state. -/
inductive PoolReachable {n : Nat} (init : PoolState n) : PoolState n → Prop where
  | refl : PoolReachable init init
  | step {s t : PoolState n} : PoolReachable init s → PoolStep s t → PoolReachable init t

/-- The dispatch invariant: the busy flag of each worker counts exactly
the jobs handed to it and not yet retired from the completion channel. -/
def PoolInv {n : Nat} (s : PoolState n) : Prop :=
  ∀ i, pend s i = if s.isBusy i = true then 1 else 0

/-! ## Concrete instances used by witnesses and counterexamples -/

/-- A concrete 1000 by 500 source image. -/
def img0 : Img := ⟨1000, 500, 7⟩

/-- A concrete stand-in for the `thumbnail` resampler. -/
def thumbFn0 : Img → Nat → Nat → Img := fun img w h => ⟨w, h, img.data⟩

/-- A remote source that always serves `img0`. -/
def remoteOk : String → Option Img := fun _ => some img0

/-- A remote source that fails on identifier `"x"`. -/
def remoteFail : String → Option Img := fun i => if i = "x" then none else some img0

/-- The empty filesystem (cold cache). -/
def fs0 : FS := ⟨[], []⟩

/-- A concrete stand-in for the 10-byte BLAKE2b digest. -/
def digestFn0 : List Nat → List Nat := fun _ => List.replicate 10 0

/-- A concrete precomputed asset envelope. -/
def asset0 : GzippedAsset := ⟨"text/css", [1, 2, 3], "hash-of-asset0"⟩

/-- A concrete precomputed catalog envelope. -/
def catalog0 : GzippedAsset := ⟨"application/json", [4, 5], "hash-of-catalog0"⟩

/-- The spec's "short (seconds-to-minutes)" cache lifetime for static and
catalog assets, read generously as at most one hour. -/
def withinSecondsToMinutes (n : Nat) : Bool := n ≤ 3600

/-! ## Helper lemmas -/

theorem create_dir_files (fs : FS) (d : FPath) : (fs.create_dir d).files = fs.files := by
  unfold FS.create_dir
  split <;> rfl

theorem read_create_dir (fs : FS) (d : FPath) (p : FPath) :
    (fs.create_dir d).read p = fs.read p := by
  simp [FS.read, create_dir_files]

theorem mem_create_dir_dirs (fs : FS) (d e : FPath) :
    e ∈ (fs.create_dir d).dirs ↔ e ∈ fs.dirs ∨ e = d := by
  unfold FS.create_dir
  split
  · rename_i h
    exact ⟨Or.inl, fun h1 => h1.elim id (fun h2 => h2 ▸ h)⟩
  · simp [List.mem_cons, or_comm]

theorem image_cache_files (fs : FS) (image_id : String) :
    ((image_cache fs image_id).1).files = fs.files := by
  simp [image_cache, create_dir_files]

theorem orig_ne_thumb (image_id : String) :
    (imageDir image_id ++ ["original.jpeg"] : FPath) ≠
      imageDir image_id ++ ["thumbnail.jpeg"] := by
  intro h
  have h2 := List.append_cancel_left h
  simp at h2

theorem read_save_same (fs : FS) (p : FPath) (img : Img) :
    (fs.save p img).read p = some img := by
  simp [FS.save, FS.read, List.lookup]

theorem read_save_other (fs : FS) (p q : FPath) (img : Img) (h : q ≠ p) :
    (fs.save p img).read q = fs.read q := by
  simp [FS.save, FS.read, List.lookup, beq_eq_false_iff_ne.mpr h]

/-! ## base64 shape lemmas -/

theorem mem_alphabet_urlsafe : ∀ c ∈ base64UrlAlphabet, urlSafeBase64Char c = true := by
  decide

theorem b64Char_urlsafe (n : Nat) : urlSafeBase64Char (b64Char n) = true := by
  unfold b64Char
  rcases Nat.lt_or_ge n base64UrlAlphabet.length with h | h
  · rw [List.getD_eq_getElem _ _ h]
    exact mem_alphabet_urlsafe _ (List.getElem_mem h)
  · rw [List.getD_eq_default _ _ h]
    decide

theorem urlSafe_ne_pad {c : Char} (h : urlSafeBase64Char c = true) : c ≠ '=' := by
  intro heq
  rw [heq] at h
  exact absurd h (by decide)

theorem base64UrlNoPad_length :
    ∀ l : List Nat, (base64UrlNoPad l).length = (4 * l.length + 2) / 3
  | [] => rfl
  | [_] => by simp [base64UrlNoPad]
  | [_, _] => by simp [base64UrlNoPad]
  | _ :: _ :: _ :: rest => by
      have ih := base64UrlNoPad_length rest
      simp only [base64UrlNoPad, List.length_cons, ih]
      omega

theorem base64UrlNoPad_urlsafe :
    ∀ l : List Nat, ∀ c ∈ base64UrlNoPad l, urlSafeBase64Char c = true
  | [] => by simp [base64UrlNoPad]
  | [a] => by
      intro c hc
      simp only [base64UrlNoPad, List.mem_cons, List.not_mem_nil, or_false] at hc
      rcases hc with rfl | rfl <;> exact b64Char_urlsafe _
  | [a, b] => by
      intro c hc
      simp only [base64UrlNoPad, List.mem_cons, List.not_mem_nil, or_false] at hc
      rcases hc with rfl | rfl | rfl <;> exact b64Char_urlsafe _
  | a :: b :: c :: rest => by
      intro ch hch
      simp only [base64UrlNoPad, List.mem_cons] at hch
      rcases hch with rfl | rfl | rfl | rfl | hmem
      · exact b64Char_urlsafe _
      · exact b64Char_urlsafe _
      · exact b64Char_urlsafe _
      · exact b64Char_urlsafe _
      · exact base64UrlNoPad_urlsafe rest ch hmem

theorem encoded_hash_length (digestFn : List Nat → List Nat) (bytes : List Nat)
    (h10 : (digestFn bytes).length = 10) :
    (encoded_hash digestFn bytes).length = 14 := by
  show (base64UrlNoPad (digestFn bytes)).length = 14
  rw [base64UrlNoPad_length, h10]

/-! ## Claims -/

/-- C6: the computed target dimensions clamp each axis independently to
its optional bound (`min` per axis), an axis with no bound is unchanged,
both bounds absent yield the source dimensions, and in particular a
1000 by 500 source clamps to `min 1000 w` by `min 500 h`, and
`(None, Some 200)` yields 1000 by 200. -/
theorem c6_max_dimensions_clamp (w h a b : Nat) :
    max_dimensions (w, h) (some a, some b) = (Nat.min w a, Nat.min h b) ∧
    max_dimensions (w, h) (none, some b) = (w, Nat.min h b) ∧
    max_dimensions (w, h) (some a, none) = (Nat.min w a, h) ∧
    max_dimensions (w, h) (none, none) = (w, h) ∧
    max_dimensions (1000, 500) (some a, some b) = (Nat.min 1000 a, Nat.min 500 b) ∧
    max_dimensions (1000, 500) (none, some 200) = (1000, 200) :=
  ⟨rfl, rfl, rfl, rfl, rfl, rfl⟩

/-- C10: `encoded_hash` on any input whose digest has the 10 bytes
guaranteed by `VarBlake2b::new(10)` is a 14-character string over the
URL-safe base64 alphabet with no `=` padding, and equal inputs give equal
outputs. -/
theorem c10_encoded_hash_shape (digestFn : List Nat → List Nat) (bytes : List Nat)
    (h10 : (digestFn bytes).length = 10) :
    (encoded_hash digestFn bytes).length = 14 ∧
    (∀ c ∈ (encoded_hash digestFn bytes).toList,
        urlSafeBase64Char c = true ∧ c ≠ '=') ∧
    (∀ bytes2, bytes2 = bytes →
        encoded_hash digestFn bytes2 = encoded_hash digestFn bytes) := by
  refine ⟨encoded_hash_length digestFn bytes h10, ?_, ?_⟩
  · intro c hc
    have hmem : c ∈ base64UrlNoPad (digestFn bytes) := hc
    have hsafe := base64UrlNoPad_urlsafe _ c hmem
    exact ⟨hsafe, urlSafe_ne_pad hsafe⟩
  · rintro _ rfl
    rfl

/-- C10 witness: the shape property at the concrete digest function. -/
theorem c10_encoded_hash_shape_witness :
    (digestFn0 [1, 2, 3]).length = 10 ∧
    ((encoded_hash digestFn0 [1, 2, 3]).length = 14 ∧
     (∀ c ∈ (encoded_hash digestFn0 [1, 2, 3]).toList,
         urlSafeBase64Char c = true ∧ c ≠ '=') ∧
     (∀ bytes2, bytes2 = [1, 2, 3] →
         encoded_hash digestFn0 bytes2 = encoded_hash digestFn0 [1, 2, 3])) :=
  ⟨rfl, c10_encoded_hash_shape digestFn0 [1, 2, 3] rfl⟩

/-- C7: building an asset envelope stores exactly the gzip of the raw
bytes, hashes them as the URL-safe encoding of the fixed-size 10-byte
digest of the compressed bytes, and is deterministic: identical raw bytes
give identical compressed bytes and identical hash. -/
theorem c7_envelope_deterministic (gzipFn digestFn : List Nat → List Nat)
    (mime : String) (raw : List Nat)
    (h10 : ∀ b, (digestFn b).length = 10) :
    (buildAsset gzipFn digestFn mime raw).bytes = gzipFn raw ∧
    (buildAsset gzipFn digestFn mime raw).hash = encoded_hash digestFn (gzipFn raw) ∧
    (digestFn (gzipFn raw)).length = 10 ∧
    (buildAsset gzipFn digestFn mime raw).hash.length = 14 ∧
    (∀ raw2, raw2 = raw →
        buildAsset gzipFn digestFn mime raw2 = buildAsset gzipFn digestFn mime raw) := by
  refine ⟨rfl, rfl, h10 _, ?_, ?_⟩
  · exact encoded_hash_length digestFn (gzipFn raw) (h10 _)
  · rintro _ rfl
    rfl

/-- C7 witness: envelope construction at concrete compression and digest
functions. -/
theorem c7_envelope_deterministic_witness :
    (∀ b, (digestFn0 b).length = 10) ∧
    ((buildAsset id digestFn0 "text/css" [1, 2, 3]).bytes = id [1, 2, 3] ∧
     (buildAsset id digestFn0 "text/css" [1, 2, 3]).hash =
       encoded_hash digestFn0 (id [1, 2, 3]) ∧
     (digestFn0 (id [1, 2, 3])).length = 10 ∧
     (buildAsset id digestFn0 "text/css" [1, 2, 3]).hash.length = 14 ∧
     (∀ raw2, raw2 = [1, 2, 3] →
         buildAsset id digestFn0 "text/css" raw2 =
           buildAsset id digestFn0 "text/css" [1, 2, 3])) :=
  ⟨fun _ => rfl, c7_envelope_deterministic id digestFn0 "text/css" [1, 2, 3] (fun _ => rfl)⟩

/-- C8 counterexample: the static-asset handler sets
`Cache-Control: public, max-age=86400` — one day, which is not within the
claimed "short (seconds-to-minutes)" range (read generously as at most one
hour). -/
theorem c8_counterexample :
    headerValue (get_asset none asset0) "Cache-Control" = some "public, max-age=86400" ∧
    withinSecondsToMinutes 86400 = false :=
  ⟨rfl, rfl⟩

/-- C8 amended: static and catalog responses carry the precomputed
compressed bytes with `Content-Encoding: gzip`, an `ETag` equal to the
stored hash, and a public cache directive of 86400 seconds (one day) for
static assets and 60 seconds for the catalog; a conditional validator
matching the ETag gets an empty 304, otherwise a 200 with the full
compressed body. -/
theorem c8_conditional_serving (asset catalog : GzippedAsset) (inm : Option String) :
    (("content-encoding", "gzip") ∈ (get_asset inm asset).headers ∧
     ("ETag", asset.hash) ∈ (get_asset inm asset).headers ∧
     ("Cache-Control", "public, max-age=86400") ∈ (get_asset inm asset).headers ∧
     (get_asset inm asset).status = (if inm = some asset.hash then 304 else 200) ∧
     (get_asset inm asset).body =
       (if inm = some asset.hash then Body.empty else Body.bytes asset.bytes)) ∧
    (("content-encoding", "gzip") ∈ (get_catalog inm catalog).headers ∧
     ("ETag", catalog.hash) ∈ (get_catalog inm catalog).headers ∧
     ("Cache-Control", "public, max-age=60") ∈ (get_catalog inm catalog).headers ∧
     (get_catalog inm catalog).status = (if inm = some catalog.hash then 304 else 200) ∧
     (get_catalog inm catalog).body =
       (if inm = some catalog.hash then Body.empty else Body.bytes catalog.bytes)) := by
  constructor
  · by_cases hm : inm = some asset.hash <;>
      simp [get_asset, Response.from_data, Response.with_unique_header,
        Response.with_etag, Response.with_public_cache, hm] <;> rfl
  · by_cases hm : inm = some catalog.hash <;>
      simp [get_catalog, Response.from_data, Response.with_unique_header,
        Response.with_etag, Response.with_public_cache, hm] <;> rfl

theorem read_create_dir2 (fs : FS) (d e p : FPath) :
    ((fs.create_dir d).create_dir e).read p = fs.read p := by
  rw [read_create_dir, read_create_dir]

theorem get_image_fst_files (fs : FS) (p : Option String) (image_id : String) :
    (get_image fs p image_id).1.files = fs.files := by
  unfold get_image
  cases h : parse_size p with
  | none => rfl
  | some size =>
      simp only [image_cache]
      cases size <;> (split <;> simp [create_dir_files])

theorem get_image_fst_thumb (fs : FS) (image_id : String) :
    (get_image fs (some "Thumbnail") image_id).1 =
      (fs.create_dir cacheRoot).create_dir (imageDir image_id) := by
  unfold get_image
  simp only [parse_size, image_cache]
  split <;> rfl

theorem get_image_fst_orig (fs : FS) (image_id : String) :
    (get_image fs (some "Original") image_id).1 =
      (fs.create_dir cacheRoot).create_dir (imageDir image_id) := by
  unfold get_image
  simp only [parse_size, image_cache]
  split <;> rfl

/-- C4: a recognized `size` serves the cached rendition as a 200 JPEG
with `Cache-Control: max-age=10368000, immutable` when the file opens;
a missing or unrecognized `size` is a 404 that touches nothing; a missing
rendition file is a 404. -/
theorem c4_image_endpoint (fs : FS) (image_id : String) (p : Option String) :
    ((get_image fs (some "Original") image_id).2 =
      match fs.read (imageDir image_id ++ ["original.jpeg"]) with
      | some img =>
          { status := 200,
            headers := [("cache-control", "max-age=10368000, immutable"),
                        ("Content-Type", "image/jpeg")],
            body := Body.file img }
      | none => Response.empty_404) ∧
    ((get_image fs (some "Thumbnail") image_id).2 =
      match fs.read (imageDir image_id ++ ["thumbnail.jpeg"]) with
      | some img =>
          { status := 200,
            headers := [("cache-control", "max-age=10368000, immutable"),
                        ("Content-Type", "image/jpeg")],
            body := Body.file img }
      | none => Response.empty_404) ∧
    parse_size none = none ∧
    (∀ s, s ≠ "Thumbnail" → s ≠ "Original" → parse_size (some s) = none) ∧
    (parse_size p = none → get_image fs p image_id = (fs, Response.empty_404)) := by
  refine ⟨?_, ?_, rfl, ?_, ?_⟩
  · cases hres : fs.read (imageDir image_id ++ ["original.jpeg"]) with
    | none =>
        simp [get_image, parse_size, image_cache, read_create_dir2, hres]
    | some img =>
        simp [get_image, parse_size, image_cache, read_create_dir2, hres,
          Response.from_file, Response.with_unique_header]
  · cases hres : fs.read (imageDir image_id ++ ["thumbnail.jpeg"]) with
    | none =>
        simp [get_image, parse_size, image_cache, read_create_dir2, hres]
    | some img =>
        simp [get_image, parse_size, image_cache, read_create_dir2, hres,
          Response.from_file, Response.with_unique_header]
  · intro s h1 h2
    unfold parse_size
    split <;> simp_all
  · intro h
    simp [get_image, h]

/-- C4 witness: the endpoint at a cold cache and an unrecognized size. -/
theorem c4_image_endpoint_witness :
    ((get_image fs0 (some "Original") "abc").2 =
      match fs0.read (imageDir "abc" ++ ["original.jpeg"]) with
      | some img =>
          { status := 200,
            headers := [("cache-control", "max-age=10368000, immutable"),
                        ("Content-Type", "image/jpeg")],
            body := Body.file img }
      | none => Response.empty_404) ∧
    ((get_image fs0 (some "Thumbnail") "abc").2 =
      match fs0.read (imageDir "abc" ++ ["thumbnail.jpeg"]) with
      | some img =>
          { status := 200,
            headers := [("cache-control", "max-age=10368000, immutable"),
                        ("Content-Type", "image/jpeg")],
            body := Body.file img }
      | none => Response.empty_404) ∧
    parse_size none = none ∧
    (∀ s, s ≠ "Thumbnail" → s ≠ "Original" → parse_size (some s) = none) ∧
    (parse_size (some "bogus") = none →
      get_image fs0 (some "bogus") "abc" = (fs0, Response.empty_404)) :=
  c4_image_endpoint fs0 "abc" (some "bogus")

/-- C9: a recognized image request creates (at most) the cache root and
the per-identifier directory as a side effect — also when the rendition is
absent and the response is 404 — and never creates, modifies, or deletes
a cache file; an unrecognized or missing size leaves the filesystem
untouched. -/
theorem c9_image_request_frame (fs : FS) (image_id : String) (p : Option String) :
    ((get_image fs (some "Original") image_id).1.files = fs.files) ∧
    ((get_image fs (some "Thumbnail") image_id).1.files = fs.files) ∧
    (∀ d, d ∈ (get_image fs (some "Original") image_id).1.dirs ↔
        d ∈ fs.dirs ∨ d = cacheRoot ∨ d = imageDir image_id) ∧
    (∀ d, d ∈ (get_image fs (some "Thumbnail") image_id).1.dirs ↔
        d ∈ fs.dirs ∨ d = cacheRoot ∨ d = imageDir image_id) ∧
    cacheRoot ∈ (get_image fs (some "Thumbnail") image_id).1.dirs ∧
    imageDir image_id ∈ (get_image fs (some "Thumbnail") image_id).1.dirs ∧
    (parse_size p = none → get_image fs p image_id = (fs, Response.empty_404)) := by
  refine ⟨get_image_fst_files .., get_image_fst_files .., ?_, ?_, ?_, ?_, ?_⟩
  · intro d
    rw [get_image_fst_orig, mem_create_dir_dirs, mem_create_dir_dirs, or_assoc]
  · intro d
    rw [get_image_fst_thumb, mem_create_dir_dirs, mem_create_dir_dirs, or_assoc]
  · rw [get_image_fst_thumb, mem_create_dir_dirs, mem_create_dir_dirs]
    exact Or.inl (Or.inr rfl)
  · rw [get_image_fst_thumb, mem_create_dir_dirs]
    exact Or.inr rfl
  · intro h
    simp [get_image, h]

/-- C9 witness: the frame property at a cold cache and an unrecognized
size. -/
theorem c9_image_request_frame_witness :
    ((get_image fs0 (some "Original") "abc").1.files = fs0.files) ∧
    ((get_image fs0 (some "Thumbnail") "abc").1.files = fs0.files) ∧
    (∀ d, d ∈ (get_image fs0 (some "Original") "abc").1.dirs ↔
        d ∈ fs0.dirs ∨ d = cacheRoot ∨ d = imageDir "abc") ∧
    (∀ d, d ∈ (get_image fs0 (some "Thumbnail") "abc").1.dirs ↔
        d ∈ fs0.dirs ∨ d = cacheRoot ∨ d = imageDir "abc") ∧
    cacheRoot ∈ (get_image fs0 (some "Thumbnail") "abc").1.dirs ∧
    imageDir "abc" ∈ (get_image fs0 (some "Thumbnail") "abc").1.dirs ∧
    (parse_size (some "size-nobody-knows") = none →
      get_image fs0 (some "size-nobody-knows") "abc" = (fs0, Response.empty_404)) :=
  c9_image_request_frame fs0 "abc" (some "size-nobody-knows")

/-- C3 counterexample: on a cold cache with the remote source available,
the spec's synchronous Fetch-and-Derive image endpoint (`spec_get_image`,
with the claimed on-demand `max_height = 400` policy) would answer 200 and
persist the derived rendition, but the code's `get_image` answers 404 and
writes no file: the handler does not derive missing renditions on demand,
and no `max_height = 400` policy exists in the code. -/
theorem c3_counterexample :
    (spec_get_image remoteOk thumbFn0 fs0 (some "Thumbnail") "abc").2.status = 200 ∧
    (get_image fs0 (some "Thumbnail") "abc").2.status = 404 ∧
    (get_image fs0 (some "Thumbnail") "abc").1.files = fs0.files :=
  ⟨rfl, rfl, rfl⟩

/-- C3 amended: for every image request naming a recognized size class the
handler performs no derivation at all: it serves the already-cached
rendition file unchanged when it opens, answers not-found when it does
not, and never writes a cache file on the request path. -/
theorem c3_no_on_demand_derivation (fs : FS) (image_id : String) (p : Option String) :
    ((get_image fs p image_id).1.files = fs.files) ∧
    (∀ img, fs.read (imageDir image_id ++ ["thumbnail.jpeg"]) = some img →
        (get_image fs (some "Thumbnail") image_id).2.status = 200 ∧
        (get_image fs (some "Thumbnail") image_id).2.body = Body.file img) ∧
    (fs.read (imageDir image_id ++ ["thumbnail.jpeg"]) = none →
        (get_image fs (some "Thumbnail") image_id).2 = Response.empty_404) ∧
    (∀ img, fs.read (imageDir image_id ++ ["original.jpeg"]) = some img →
        (get_image fs (some "Original") image_id).2.status = 200 ∧
        (get_image fs (some "Original") image_id).2.body = Body.file img) ∧
    (fs.read (imageDir image_id ++ ["original.jpeg"]) = none →
        (get_image fs (some "Original") image_id).2 = Response.empty_404) := by
  refine ⟨get_image_fst_files .., ?_, ?_, ?_, ?_⟩
  · intro img hres
    constructor <;>
      simp [get_image, parse_size, image_cache, read_create_dir2, hres,
        Response.from_file, Response.with_unique_header]
  · intro hres
    simp [get_image, parse_size, image_cache, read_create_dir2, hres]
  · intro img hres
    constructor <;>
      simp [get_image, parse_size, image_cache, read_create_dir2, hres,
        Response.from_file, Response.with_unique_header]
  · intro hres
    simp [get_image, parse_size, image_cache, read_create_dir2, hres]

/-- C3 amended witness: the no-derivation property at a cold cache. -/
theorem c3_no_on_demand_derivation_witness :
    ((get_image fs0 (some "Thumbnail") "abc").1.files = fs0.files) ∧
    (∀ img, fs0.read (imageDir "abc" ++ ["thumbnail.jpeg"]) = some img →
        (get_image fs0 (some "Thumbnail") "abc").2.status = 200 ∧
        (get_image fs0 (some "Thumbnail") "abc").2.body = Body.file img) ∧
    (fs0.read (imageDir "abc" ++ ["thumbnail.jpeg"]) = none →
        (get_image fs0 (some "Thumbnail") "abc").2 = Response.empty_404) ∧
    (∀ img, fs0.read (imageDir "abc" ++ ["original.jpeg"]) = some img →
        (get_image fs0 (some "Original") "abc").2.status = 200 ∧
        (get_image fs0 (some "Original") "abc").2.body = Body.file img) ∧
    (fs0.read (imageDir "abc" ++ ["original.jpeg"]) = none →
        (get_image fs0 (some "Original") "abc").2 = Response.empty_404) :=
  c3_no_on_demand_derivation fs0 "abc" (some "Thumbnail")

/-- C2: warming a fresh identifier (no cache files) derives both
renditions with exactly one remote fetch: the original is fetched once and
persisted, and the thumbnail is computed from that same persisted original
content — not by a second network fetch. -/
theorem c2_single_fetch (remote : String → Option Img) (thumbFn : Img → Nat → Nat → Img)
    (fs : FS) (image_id : String) (img : Img)
    (hremote : remote image_id = some img)
    (horig : fs.read (imageDir image_id ++ ["original.jpeg"]) = none)
    (hthumb : fs.read (imageDir image_id ++ ["thumbnail.jpeg"]) = none) :
    ∃ fs2 : FS,
      prefetch_job remote thumbFn fs image_id =
        .ok fs2 1 img
          (thumbFn img (max_dimensions (img.width, img.height) (none, some 200)).1
            (max_dimensions (img.width, img.height) (none, some 200)).2) ∧
      fs2.read (imageDir image_id ++ ["original.jpeg"]) = some img ∧
      fs2.read (imageDir image_id ++ ["thumbnail.jpeg"]) =
        some (thumbFn img (max_dimensions (img.width, img.height) (none, some 200)).1
          (max_dimensions (img.width, img.height) (none, some 200)).2) := by
  have hne : (imageDir image_id ++ ["thumbnail.jpeg"] : FPath) ≠
      imageDir image_id ++ ["original.jpeg"] := Ne.symm (orig_ne_thumb image_id)
  have h1 : ((fs.create_dir cacheRoot).create_dir (imageDir image_id)).read
      (imageDir image_id ++ ["original.jpeg"]) = none := by
    rw [read_create_dir2]; exact horig
  have h2 : (((fs.create_dir cacheRoot).create_dir (imageDir image_id)).save
      (imageDir image_id ++ ["original.jpeg"]) img).read
      (imageDir image_id ++ ["thumbnail.jpeg"]) = none := by
    rw [read_save_other _ _ _ _ hne, read_create_dir2]; exact hthumb
  refine ⟨(((fs.create_dir cacheRoot).create_dir (imageDir image_id)).save
      (imageDir image_id ++ ["original.jpeg"]) img).save
      (imageDir image_id ++ ["thumbnail.jpeg"])
      (thumbFn img (max_dimensions (img.width, img.height) (none, some 200)).1
        (max_dimensions (img.width, img.height) (none, some 200)).2), ?_, ?_, ?_⟩
  · simp [prefetch_job, prefetch_thumb, image_cache, h1, hremote, h2, max_dimensions]
  · rw [read_save_other _ _ _ _ (orig_ne_thumb image_id), read_save_same]
  · rw [read_save_same]

/-- C2 witness: one warm job on a cold cache with an available remote. -/
theorem c2_single_fetch_witness :
    remoteOk "abc" = some img0 ∧
    fs0.read (imageDir "abc" ++ ["original.jpeg"]) = none ∧
    fs0.read (imageDir "abc" ++ ["thumbnail.jpeg"]) = none ∧
    (∃ fs2 : FS,
      prefetch_job remoteOk thumbFn0 fs0 "abc" =
        .ok fs2 1 img0
          (thumbFn0 img0 (max_dimensions (img0.width, img0.height) (none, some 200)).1
            (max_dimensions (img0.width, img0.height) (none, some 200)).2) ∧
      fs2.read (imageDir "abc" ++ ["original.jpeg"]) = some img0 ∧
      fs2.read (imageDir "abc" ++ ["thumbnail.jpeg"]) =
        some (thumbFn0 img0 (max_dimensions (img0.width, img0.height) (none, some 200)).1
          (max_dimensions (img0.width, img0.height) (none, some 200)).2)) :=
  ⟨rfl, rfl, rfl, c2_single_fetch remoteOk thumbFn0 fs0 "abc" img0 rfl rfl rfl⟩

/-- C5 counterexample: a failed remote fetch for job `"x"` does not merely
terminate that job with a warning — the `.unwrap()` panics the worker
thread, so the worker stops and the queued job `"y"` is never taken,
contradicting the claim that the worker keeps running and takes subsequent
jobs. -/
theorem c5_counterexample :
    (image_prefetch_worker remoteFail thumbFn0 fs0 ["x", "y"]).panicked = true ∧
    (image_prefetch_worker remoteFail thumbFn0 fs0 ["x", "y"]).unprocessed = ["y"] :=
  ⟨rfl, rfl⟩

/-- C5 amended: any error while deriving a rendition for one identifier
(modelled: a failed remote fetch on a cache miss) panics the worker thread
via `.unwrap()` rather than logging a warning: the job terminates, the
worker stops, and every job still queued behind it is left unprocessed. -/
theorem c5_worker_stops_on_error (remote : String → Option Img)
    (thumbFn : Img → Nat → Nat → Img) (fs : FS) (image_id : String) (rest : List String)
    (hremote : remote image_id = none)
    (horig : fs.read (imageDir image_id ++ ["original.jpeg"]) = none) :
    ∃ fs2 : FS,
      prefetch_job remote thumbFn fs image_id = .panicked fs2 1 ∧
      image_prefetch_worker remote thumbFn fs (image_id :: rest) = ⟨fs2, rest, true⟩ := by
  have h1 : ((fs.create_dir cacheRoot).create_dir (imageDir image_id)).read
      (imageDir image_id ++ ["original.jpeg"]) = none := by
    rw [read_create_dir2]; exact horig
  have hjob : prefetch_job remote thumbFn fs image_id =
      .panicked ((fs.create_dir cacheRoot).create_dir (imageDir image_id)) 1 := by
    simp [prefetch_job, image_cache, h1, hremote]
  exact ⟨_, hjob, by simp [image_prefetch_worker, hjob]⟩

/-- C5 amended witness: the worker stops at the failing job `"x"` and the
job `"y"` behind it is unprocessed. -/
theorem c5_worker_stops_on_error_witness :
    remoteFail "x" = none ∧
    fs0.read (imageDir "x" ++ ["original.jpeg"]) = none ∧
    (∃ fs2 : FS,
      prefetch_job remoteFail thumbFn0 fs0 "x" = .panicked fs2 1 ∧
      image_prefetch_worker remoteFail thumbFn0 fs0 ["x", "y"] = ⟨fs2, ["y"], true⟩) :=
  ⟨rfl, rfl, c5_worker_stops_on_error remoteFail thumbFn0 fs0 "x" ["y"] rfl rfl⟩

/-! ## Worker pool dispatch invariant -/

theorem poolInv_init (n : Nat) (jobs : List String) : PoolInv (initPool n jobs) := by
  intro i
  simp [PoolInv, pend, initPool, inboxLoad, statusLoad]

theorem poolInv_step {n : Nat} {s t : PoolState n} (hI : PoolInv s) (hS : PoolStep s t) :
    PoolInv t := by
  cases hS with
  | dispatchFree i j rest hjobs hfree hempty =>
      intro k
      have hk0 := hI k
      by_cases hk : k = i
      · subst hk
        simp only [pend, hfree, hempty, inboxLoad, if_neg Bool.false_ne_true] at hk0
        simp [pend, Function.update_same, inboxLoad]
        omega
      · simpa [pend, Function.update_noteq hk] using hk0
  | dispatchWait i j rest cs hjobs hall hcomp hempty =>
      intro k
      have hk0 := hI k
      by_cases hk : k = i
      · subst hk
        simp only [pend, hall k, hempty, hcomp, inboxLoad, List.count_cons, if_pos rfl,
          beq_self_eq_true, if_true] at hk0
        simp [pend, Function.update_same, inboxLoad, hall k]
        omega
      · have hik : ¬ i = k := fun hx => hk hx.symm
        simp only [pend, hcomp, List.count_cons, beq_iff_eq, hik, if_false, Nat.add_zero] at hk0
        simpa [pend, Function.update_noteq hk] using hk0
  | workerTake i j hstat hinbox =>
      intro k
      have hk0 := hI k
      by_cases hk : k = i
      · subst hk
        simp only [pend, hstat, hinbox, inboxLoad, statusLoad] at hk0
        simp only [pend, Function.update_same, inboxLoad, statusLoad]
        omega
      · simpa [pend, Function.update_noteq hk] using hk0
  | workerFinish i j hstat hlen =>
      intro k
      have hk0 := hI k
      by_cases hk : k = i
      · subst hk
        simp only [pend, hstat, statusLoad] at hk0
        simp only [pend, Function.update_same, statusLoad, List.count_append,
          List.count_singleton, beq_self_eq_true, if_true]
        omega
      · simp only [pend, Function.update_noteq hk, List.count_append]
        have : List.count k [i] = 0 := by simp [beq_iff_eq, hk]
        rw [this]
        simpa [pend] using hk0

theorem poolInv_reachable {n : Nat} {jobs0 : List String} {s : PoolState n}
    (h : PoolReachable (initPool n jobs0) s) : PoolInv s := by
  induction h with
  | refl => exact poolInv_init n jobs0
  | step _ hs ih => exact poolInv_step ih hs

/-- C1: in every state of `image_prefetch_pool` reachable from the start,
at most `n` jobs are in flight (handed out and not yet retired), each
single-slot inbox buffers at most one pending job, a job handed over after
a completion signal goes to a worker whose inbox is empty and which is
idle, and once every worker is marked busy and no completion signal is
pending, no step of the dispatcher can consume the job stream — the
dispatch loop blocks on the completion channel. -/
theorem c1_pool_bounded_concurrency {n : Nat} {jobs0 : List String} {s : PoolState n}
    (h : PoolReachable (initPool n jobs0) s) :
    (∑ i, pend s i) ≤ n ∧
    ((Finset.univ.filter fun i => statusLoad (s.wstatus i) = 1).card ≤ n) ∧
    (∀ i, inboxLoad (s.inbox i) ≤ 1) ∧
    (∀ i cs, (∀ k, s.isBusy k = true) → s.completion = i :: cs →
        s.inbox i = none ∧ s.wstatus i = .idle) ∧
    ((∀ k, s.isBusy k = true) → s.completion = [] →
        ∀ t, PoolStep s t → t.jobs = s.jobs) := by
  have hI := poolInv_reachable h
  refine ⟨?_, ?_, ?_, ?_, ?_⟩
  · calc (∑ i, pend s i) = ∑ i, (if s.isBusy i = true then 1 else 0) :=
          Finset.sum_congr rfl (fun i _ => hI i)
    _ ≤ ∑ _i : Fin n, 1 := Finset.sum_le_sum (fun i _ => by split <;> omega)
    _ = n := by simp
  · calc (Finset.univ.filter fun i => statusLoad (s.wstatus i) = 1).card
        ≤ (Finset.univ : Finset (Fin n)).card := Finset.card_filter_le _ _
    _ = n := by simp
  · intro i
    cases s.inbox i <;> simp [inboxLoad]
  · intro i cs hall hcomp
    have hk0 := hI i
    simp only [pend, hall i, hcomp, List.count_cons, beq_self_eq_true, if_true] at hk0
    have hin : inboxLoad (s.inbox i) = 0 := by omega
    have hst : statusLoad (s.wstatus i) = 0 := by omega
    constructor
    · cases hx : s.inbox i
      · rfl
      · rw [hx] at hin; simp [inboxLoad] at hin
    · cases hx : s.wstatus i
      · rfl
      · rw [hx] at hst; simp [statusLoad] at hst
  · intro hall hnil t hstep
    cases hstep with
    | dispatchFree i j rest hjobs hfree hempty =>
        rw [hall i] at hfree
        exact absurd hfree (by simp)
    | dispatchWait i j rest cs hjobs hall2 hcomp hempty =>
        rw [hnil] at hcomp
        exact absurd hcomp (by simp)
    | workerTake i j hstat hinbox => rfl
    | workerFinish i j hstat hlen => rfl

/-- C1 witness: the invariant at the initial state of a two-worker pool
with three queued jobs. -/
theorem c1_pool_bounded_concurrency_witness :
    PoolReachable (initPool 2 ["a", "b", "c"]) (initPool 2 ["a", "b", "c"]) ∧
    ((∑ i, pend (initPool 2 ["a", "b", "c"]) i) ≤ 2 ∧
     ((Finset.univ.filter fun i =>
         statusLoad ((initPool 2 ["a", "b", "c"]).wstatus i) = 1).card ≤ 2) ∧
     (∀ i, inboxLoad ((initPool 2 ["a", "b", "c"]).inbox i) ≤ 1) ∧
     (∀ i cs, (∀ k, (initPool 2 ["a", "b", "c"]).isBusy k = true) →
         (initPool 2 ["a", "b", "c"]).completion = i :: cs →
         (initPool 2 ["a", "b", "c"]).inbox i = none ∧
         (initPool 2 ["a", "b", "c"]).wstatus i = .idle) ∧
     ((∀ k, (initPool 2 ["a", "b", "c"]).isBusy k = true) →
         (initPool 2 ["a", "b", "c"]).completion = [] →
         ∀ t, PoolStep (initPool 2 ["a", "b", "c"]) t →
           t.jobs = (initPool 2 ["a", "b", "c"]).jobs)) :=
  ⟨PoolReachable.refl, c1_pool_bounded_concurrency PoolReachable.refl⟩

end Grifter
